import Mathlib

/-!
Formal model of `src/main.rs` from the podman-wasm-oci-example repository.

The program is a single sequential routine: it prints a banner, then for
`i` in `1..=5` reads the wall clock (seconds since the Unix epoch, a
fallible operation: `duration_since(UNIX_EPOCH).unwrap()` panics when the
read fails), prints one sensor-reading line, and performs a 2-second
blocking sleep; finally it prints a footer.  We embed a run as a function
of the build-time constants (`CARGO_PKG_VERSION`, `CARGO_PKG_NAME`) and a
clock oracle `Nat → Option Nat` giving the result of the clock read at
each loop iteration (`none` models a failing read, which in the source
aborts the process with a non-zero status via `unwrap`).  The observable
behaviour is a trace of events: lines written to standard output and
blocking sleeps.  Alongside the rendered lines we record the structured
arguments `(i, temperature, timestamp)` that the source passes to
`println!` for each reading line.
-/

/-- An observable event of a run: a line written to standard output, or a
blocking sleep of the given number of seconds. -/
inductive Event where
  | out (line : String)
  | sleep (secs : Nat)
deriving DecidableEq, Repr

/-- The structured arguments of one reading line, exactly the three values
interpolated by the `println!` at lines 13–19 of `main.rs`: the loop index,
the temperature `20 + (i * 3)`, and the clock value in whole seconds. -/
structure Reading where
  idx : Nat
  temp : Nat
  ts : Nat
deriving DecidableEq, Repr

/-- The result of a run: the full event trace, the structured readings that
were printed, and whether the process reached the end of `main` (exit
status 0) as opposed to panicking on a failed clock read (non-zero). -/
structure RunResult where
  events : List Event
  readings : List Reading
  exit0 : Bool
deriving DecidableEq, Repr

/-- One reading line as rendered by the `println!` format string
`"[{}] Sensor reading: temperature={}°C, timestamp={}"`. -/
def readingLine (i temp ts : Nat) : String :=
  "[" ++ toString i ++ "] Sensor reading: temperature=" ++ toString temp ++
    "°C, timestamp=" ++ toString ts

/-- The banner block printed by lines 5–9 of `main.rs`, as a list of lines;
`version` and `pkgName` are the build-time constants `CARGO_PKG_VERSION`
and `CARGO_PKG_NAME`.  The trailing empty string is the `println!()` at
line 9. -/
def bannerLines (version pkgName : String) : List String :=
  ["🦭 Margo WASM Demo - Hello from WebAssembly!",
   "========================================",
   "Runtime: wasm32-wasi",
   "Build: Rust " ++ version ++ " (" ++ pkgName ++ ")",
   ""]

/-- The footer block printed by lines 23–25 of `main.rs`: a blank line, the
success line, and the memory-footprint line. -/
def footerLines : List String :=
  ["",
   "✓ WASM workload completed successfully",
   "Memory footprint: <10 MB (WASM sandbox)"]

/-- The reading loop of `main.rs` (lines 12–21), starting at loop index `i`
with `n` iterations remaining.  Each iteration first evaluates the
`println!` arguments — in particular the clock read `clk i`; if it fails
(`none`), `unwrap` panics: nothing of the current line is emitted and the
loop stops with the failure flag (`false`).  Otherwise the full rendered
line is written, the structured reading recorded, and a 2-second sleep
executed before the next iteration. -/
def runLoop (clk : Nat → Option Nat) : Nat → Nat → List Event × List Reading × Bool
  | _, 0 => ([], [], true)
  | i, n + 1 =>
    match clk i with
    | none => ([], [], false)
    | some t =>
      let rest := runLoop clk (i + 1) n
      (Event.out (readingLine i (20 + i * 3) t) :: Event.sleep 2 :: rest.1,
       ⟨i, 20 + i * 3, t⟩ :: rest.2.1,
       rest.2.2)

/-- The whole of `fn main` in `main.rs`: banner, the reading loop for
`i in 1..=5`, and — only when every clock read succeeded, i.e. no panic
occurred — the footer.  `exit0` is `true` exactly when `main` returns
normally (process exit status 0). -/
def mainRun (version pkgName : String) (clk : Nat → Option Nat) : RunResult :=
  let l := runLoop clk 1 5
  { events := (bannerLines version pkgName).map Event.out ++ l.1 ++
      (if l.2.2 then footerLines.map Event.out else []),
    readings := l.2.1,
    exit0 := l.2.2 }

/-- The process-level entry point: the source `fn main()` takes no
command-line arguments and reads no environment variables (no use of
`std::env` anywhere), so the argument vector and the environment are
accepted here and ignored, exactly as the process ignores them. -/
def mainProcess (_args : List String) (_envVars : List (String × String))
    (version pkgName : String) (clk : Nat → Option Nat) : RunResult :=
  mainRun version pkgName clk

/-- The lines written to standard output, in order, extracted from an event
trace. -/
def outLines (evs : List Event) : List String :=
  evs.filterMap fun e =>
    match e with
    | Event.out s => some s
    | Event.sleep _ => none

/-- The durations (in seconds) of the blocking sleeps of a trace, in
order. -/
def sleeps (evs : List Event) : List Nat :=
  evs.filterMap fun e =>
    match e with
    | Event.out _ => none
    | Event.sleep s => some s

/-- Boolean test that a list of naturals is non-decreasing. -/
def nondecreasing : List Nat → Bool
  | a :: b :: l => Nat.ble a b && nondecreasing (b :: l)
  | _ => true

/-- The events of `n` successful loop iterations starting at index `i`,
with timestamps drawn from `t` (closed form of `runLoop` on an
all-successful clock). -/
def okEvents (t : Nat → Nat) : Nat → Nat → List Event
  | _, 0 => []
  | i, n + 1 =>
    Event.out (readingLine i (20 + i * 3) (t i)) :: Event.sleep 2 :: okEvents t (i + 1) n

/-- The structured readings of `n` successful loop iterations starting at
index `i`. -/
def okReadings (t : Nat → Nat) : Nat → Nat → List Reading
  | _, 0 => []
  | i, n + 1 => ⟨i, 20 + i * 3, t i⟩ :: okReadings t (i + 1) n

/-- The rendered reading lines of `n` successful loop iterations starting
at index `i`. -/
def okLines (t : Nat → Nat) : Nat → Nat → List String
  | _, 0 => []
  | i, n + 1 => readingLine i (20 + i * 3) (t i) :: okLines t (i + 1) n

/-- The full standard-output transcript of a normal run as a template in
which every character is fixed by build-time constants except the five
timestamp arguments `ts`. -/
def template (version pkgName : String) (ts : Fin 5 → Nat) : List String :=
  bannerLines version pkgName ++
    [readingLine 1 23 (ts 0), readingLine 2 26 (ts 1), readingLine 3 29 (ts 2),
     readingLine 4 32 (ts 3), readingLine 5 35 (ts 4)] ++
    footerLines

section ClaimTheorems

/-- C1: A normal run (every clock read succeeds) writes to standard output
exactly 13 lines in the fixed order: the banner line, the separator line of
`=` characters, the `Runtime: wasm32-wasi` line, the `Build: Rust <version>
(<package-name>)` line, a blank line, the five reading lines
`[<i>] Sensor reading: temperature=<T>°C, timestamp=<unix-seconds>`, a
blank line, the success line, and the memory-footprint line; the banner
block appears exactly once before any reading line and the footer block
exactly once after all reading lines, as the explicit list equality
shows. -/
theorem c1_normal_run_output (version pkgName : String) (t : Nat → Nat) :
    outLines (mainRun version pkgName (fun k => some (t k))).events =
      bannerLines version pkgName ++
        [readingLine 1 23 (t 1), readingLine 2 26 (t 2), readingLine 3 29 (t 3),
         readingLine 4 32 (t 4), readingLine 5 35 (t 5)] ++
        footerLines ∧
    (outLines (mainRun version pkgName (fun k => some (t k))).events).length = 13 :=
  ⟨rfl, rfl⟩

/-- C2: every normal run produces exactly 5 reading lines, whose index
values are 1, 2, 3, 4, 5 in that exact ascending order, with no gaps and no
repeats. -/
theorem c2_reading_indices (version pkgName : String) (t : Nat → Nat) :
    (mainRun version pkgName (fun k => some (t k))).readings.map Reading.idx =
      [1, 2, 3, 4, 5] :=
  rfl

/-- C3: for every reading line with index `i` (1 ≤ i ≤ 5), the printed
temperature equals `20 + 3·i` in exact integer arithmetic, so the five
printed temperatures are exactly 23, 26, 29, 32, 35. -/
theorem c3_temperatures (version pkgName : String) (t : Nat → Nat) :
    (mainRun version pkgName (fun k => some (t k))).readings.map
        (fun r => (r.idx, r.temp)) =
      [(1, 23), (2, 26), (3, 29), (4, 32), (5, 35)] ∧
    ((mainRun version pkgName (fun k => some (t k))).readings.all
        fun r => r.temp == 20 + 3 * r.idx) = true :=
  ⟨rfl, rfl⟩

/-- C6: in every normal run a 2-second blocking pause follows every one of
the 5 loop iterations, including the 5th: in the event trace a `sleep 2`
event stands between the 5th reading line and the footer block, so the
footer is emitted only after a trailing 2-second delay. -/
theorem c6_trailing_pause (version pkgName : String) (t : Nat → Nat) :
    (mainRun version pkgName (fun k => some (t k))).events =
      (bannerLines version pkgName).map Event.out ++
        [Event.out (readingLine 1 23 (t 1)), Event.sleep 2,
         Event.out (readingLine 2 26 (t 2)), Event.sleep 2,
         Event.out (readingLine 3 29 (t 3)), Event.sleep 2,
         Event.out (readingLine 4 32 (t 4)), Event.sleep 2,
         Event.out (readingLine 5 35 (t 5)), Event.sleep 2] ++
        footerLines.map Event.out :=
  rfl

/-- C7 counterexample: the claim says a full normal run contains exactly 4
two-second pauses and no trailing pause after the final reading; in fact
the concrete normal run with clock constantly 0 executes 5 sleeps (the
loop body sleeps on every iteration, including the last). -/
theorem c7_counterexample :
    ¬ (sleeps (mainRun "" "" (fun _ => some 0)).events).length = 4 := by
  decide

/-- C7 amended: a full normal run contains exactly 5 two-second pauses —
one after each of the 5 readings, i.e. 4 inter-reading pauses plus a
trailing pause after the final reading — so the total time spent sleeping
is 10 seconds and the wall-clock duration of a run is at least 10 (hence
at least 8) seconds. -/
theorem c7_five_pauses (version pkgName : String) (t : Nat → Nat) :
    sleeps (mainRun version pkgName (fun k => some (t k))).events =
        [2, 2, 2, 2, 2] ∧
    (sleeps (mainRun version pkgName (fun k => some (t k))).events).sum = 10 :=
  ⟨rfl, rfl⟩

/-- C8: for any two runs of the program, regardless of command-line
arguments or environment variables (none are consumed by the source), both
output transcripts are instances of one fixed template in which every
character is determined by the build-time constants except the five
timestamp arguments: the transcripts are byte-identical except for the
timestamp values on the reading lines. -/
theorem c8_deterministic_modulo_timestamps
    (args args' : List String) (env env' : List (String × String))
    (version pkgName : String) (t t' : Nat → Nat) :
    ∃ ts ts' : Fin 5 → Nat,
      outLines (mainProcess args env version pkgName (fun k => some (t k))).events =
          template version pkgName ts ∧
      outLines (mainProcess args' env' version pkgName (fun k => some (t' k))).events =
          template version pkgName ts' :=
  ⟨fun j => t (j.1 + 1), fun j => t' (j.1 + 1), rfl, rfl⟩

/-- C9: when every clock read succeeds the program terminates — the model
is a total function, mirroring the single bounded 5-iteration loop with no
other loop or recursion in the source — and exits with status 0; no other
exit code is reachable on this path. -/
theorem c9_normal_exit (version pkgName : String) (t : Nat → Nat) :
    (mainRun version pkgName (fun k => some (t k))).exit0 = true :=
  rfl

end ClaimTheorems

section FailureLemmas

/-- Extracting output lines distributes over trace concatenation. -/
theorem outLines_append (a b : List Event) :
    outLines (a ++ b) = outLines a ++ outLines b := by
  simp [outLines]

/-- A trace consisting only of output events yields back its lines. -/
theorem outLines_map_out (l : List String) :
    outLines (l.map Event.out) = l := by
  induction l with
  | nil => rfl
  | cons s l ih => simp [outLines] at ih ⊢; exact ih

/-- The lines of the events of `n` successful iterations are the rendered
reading lines. -/
theorem outLines_okEvents (t : Nat → Nat) (n : Nat) :
    ∀ i, outLines (okEvents t i n) = okLines t i n := by
  induction n with
  | zero => intro i; rfl
  | succ n ih => intro i; simp [okEvents, okLines, outLines] at ih ⊢; exact ih (i + 1)

/-- `n` successful iterations starting at `i` record `n` readings. -/
theorem okReadings_length (t : Nat → Nat) (n : Nat) :
    ∀ i, (okReadings t i n).length = n := by
  induction n with
  | zero => intro i; rfl
  | succ n ih => intro i; simp [okReadings]; exact ih (i + 1)

/-- The indices of `n` successful iterations starting at `i` are
`i, i+1, …, i+n-1`. -/
theorem okReadings_map_idx (t : Nat → Nat) (n : Nat) :
    ∀ i, (okReadings t i n).map Reading.idx = List.range' i n := by
  induction n with
  | zero => intro i; rfl
  | succ n ih => intro i; simp [okReadings, List.range'_succ]; exact ih (i + 1)

/-- Rendering the recorded readings reproduces the reading lines. -/
theorem okReadings_map_render (t : Nat → Nat) (n : Nat) :
    ∀ i, (okReadings t i n).map (fun r => readingLine r.idx r.temp r.ts) =
      okLines t i n := by
  induction n with
  | zero => intro i; rfl
  | succ n ih => intro i; simp [okReadings, okLines]; exact ih (i + 1)

/-- If the first failing clock read of `runLoop clk i n` is the `k`-th
(0-based, `k < n`), the loop emits exactly the events and readings of the
first `k` iterations and stops with the failure flag. -/
theorem runLoop_fail (clk : Nat → Option Nat) (t : Nat → Nat) :
    ∀ k n i, k < n → clk (i + k) = none →
      (∀ j, j < k → clk (i + j) = some (t (i + j))) →
      runLoop clk i n = (okEvents t i k, okReadings t i k, false) := by
  intro k
  induction k with
  | zero =>
    intro n i hkn hfail _
    obtain ⟨m, rfl⟩ : ∃ m, n = m + 1 := ⟨n - 1, by omega⟩
    rw [Nat.add_zero] at hfail
    simp [runLoop, hfail, okEvents, okReadings]
  | succ k ih =>
    intro n i hkn hfail hok
    obtain ⟨m, rfl⟩ : ∃ m, n = m + 1 := ⟨n - 1, by omega⟩
    have h0 : clk i = some (t i) := by
      have h := hok 0 (Nat.succ_pos k)
      simpa using h
    have hrest : runLoop clk (i + 1) m =
        (okEvents t (i + 1) k, okReadings t (i + 1) k, false) := by
      apply ih
      · omega
      · have he : i + 1 + k = i + (k + 1) := by omega
        rw [he]; exact hfail
      · intro j hj
        have he : i + 1 + j = i + (j + 1) := by omega
        rw [he]; exact hok (j + 1) (by omega)
    simp [runLoop, h0, hrest, okEvents, okReadings]

/-- If the clock read fails at loop index `i` (1 ≤ i ≤ 5) and succeeded at
all earlier indices, then `main` produces the banner, the events of
iterations `1 … i-1`, no footer, and a non-zero exit. -/
theorem mainRun_fail (version pkgName : String) (clk : Nat → Option Nat)
    (t : Nat → Nat) (i : Nat) (h1 : 1 ≤ i) (h5 : i ≤ 5)
    (hfail : clk i = none)
    (hok : ∀ j, 1 ≤ j → j < i → clk j = some (t j)) :
    mainRun version pkgName clk =
      { events := (bannerLines version pkgName).map Event.out ++ okEvents t 1 (i - 1),
        readings := okReadings t 1 (i - 1),
        exit0 := false } := by
  have hloop : runLoop clk 1 5 =
      (okEvents t 1 (i - 1), okReadings t 1 (i - 1), false) := by
    apply runLoop_fail clk t (i - 1) 5 1 (by omega)
    · have he : 1 + (i - 1) = i := by omega
      rw [he]; exact hfail
    · intro j hj
      exact hok (1 + j) (by omega) (by omega)
  simp [mainRun, hloop]

end FailureLemmas

section RemainingClaims

/-- C4 counterexample: the claim that the printed timestamps are
non-decreasing in every run fails on the code: the program prints whatever
the wall clock returns, and nothing prevents the clock from stepping
backwards between reads. With the clock oracle `fun k => some (10 - k)`
(a clock that loses a second between successive reads) the printed
timestamps are 9, 8, 7, 6, 5 — strictly decreasing. -/
theorem c4_counterexample :
    (mainRun "" "" (fun k => some (10 - k))).readings.map Reading.ts =
        [9, 8, 7, 6, 5] ∧
    nondecreasing
        ((mainRun "" "" (fun k => some (10 - k))).readings.map Reading.ts) =
      false :=
  ⟨rfl, rfl⟩

/-- C4 amended: the timestamp printed on each reading line is a
non-negative integer equal to the corresponding clock read (whole seconds
since the Unix epoch, modelled as `Nat`, hence non-negative), and the
printed timestamps are non-decreasing across the five readings whenever
the wall clock itself does not step backwards between reads. -/
theorem c4_timestamps (version pkgName : String) (t : Nat → Nat)
    (h : ∀ k, t k ≤ t (k + 1)) :
    (mainRun version pkgName (fun k => some (t k))).readings.map Reading.ts =
        [t 1, t 2, t 3, t 4, t 5] ∧
    nondecreasing
        ((mainRun version pkgName (fun k => some (t k))).readings.map Reading.ts) =
      true := by
  refine ⟨rfl, ?_⟩
  show nondecreasing [t 1, t 2, t 3, t 4, t 5] = true
  have h1 : t 1 ≤ t 2 := h 1
  have h2 : t 2 ≤ t 3 := h 2
  have h3 : t 3 ≤ t 4 := h 3
  have h4 : t 4 ≤ t 5 := h 4
  simp [nondecreasing, Nat.ble_eq]
  omega

/-- C4 witness: with the identity clock the printed timestamps are
1, 2, 3, 4, 5 and non-decreasing. -/
theorem c4_witness :
    (mainRun "" "" (fun k => some k)).readings.map Reading.ts =
        [1, 2, 3, 4, 5] ∧
    nondecreasing ((mainRun "" "" (fun k => some k)).readings.map Reading.ts) =
      true :=
  c4_timestamps "" "" (fun k => k) (fun k => Nat.le_succ k)

/-- C5: if the clock read fails at some iteration `i` of a run, the process
terminates with a non-zero exit status (`exit0 = false`, the `unwrap`
panic) and emits no further output on standard output: the transcript is
exactly the banner followed by the `i - 1` completed reading lines — no
retry, no partial-result reporting, no footer, and no program-produced
error message on standard output. -/
theorem c5_clock_failure (version pkgName : String) (clk : Nat → Option Nat)
    (t : Nat → Nat) (i : Nat) (h1 : 1 ≤ i) (h5 : i ≤ 5)
    (hfail : clk i = none)
    (hok : ∀ j, 1 ≤ j → j < i → clk j = some (t j)) :
    (mainRun version pkgName clk).exit0 = false ∧
    outLines (mainRun version pkgName clk).events =
      bannerLines version pkgName ++ okLines t 1 (i - 1) ∧
    (mainRun version pkgName clk).readings.length = i - 1 := by
  rw [mainRun_fail version pkgName clk t i h1 h5 hfail hok]
  refine ⟨rfl, ?_, ?_⟩
  · rw [outLines_append, outLines_map_out, outLines_okEvents]
  · exact okReadings_length t (i - 1) 1

/-- C5 witness: when the very first clock read fails, the run exits
non-zero and the transcript is the banner alone. -/
theorem c5_witness :
    (mainRun "" "" (fun _ => none)).exit0 = false ∧
    outLines (mainRun "" "" (fun _ => none)).events =
      bannerLines "" "" ++ okLines (fun _ => 0) 1 (1 - 1) ∧
    (mainRun "" "" (fun _ => none)).readings.length = 1 - 1 :=
  c5_clock_failure "" "" (fun _ => none) (fun _ => 0) 1 (Nat.le_refl 1)
    (by omega) rfl (fun j h1j hj => absurd hj (Nat.not_lt.mpr h1j))

/-- C10: if the clock read fails at iteration `i`, the transcript at
termination is the banner followed by the complete reading lines of
iterations `1 … i-1` — every reading line appears in full or not at all,
and no fragment of line `i` is emitted, because in the source the
timestamp is obtained (as a `println!` argument) before any part of the
line is written. -/
theorem c10_atomic_lines (version pkgName : String) (clk : Nat → Option Nat)
    (t : Nat → Nat) (i : Nat) (h1 : 1 ≤ i) (h5 : i ≤ 5)
    (hfail : clk i = none)
    (hok : ∀ j, 1 ≤ j → j < i → clk j = some (t j)) :
    outLines (mainRun version pkgName clk).events =
      bannerLines version pkgName ++
        ((mainRun version pkgName clk).readings.map
          fun r => readingLine r.idx r.temp r.ts) ∧
    (mainRun version pkgName clk).readings.map Reading.idx =
      List.range' 1 (i - 1) := by
  rw [mainRun_fail version pkgName clk t i h1 h5 hfail hok]
  constructor
  · rw [outLines_append, outLines_map_out, outLines_okEvents,
      okReadings_map_render]
  · exact okReadings_map_idx t (i - 1) 1

/-- C10 witness: with a clock that fails at the third read, the transcript
is the banner plus the two complete reading lines for iterations 1 and 2,
and the recorded indices are exactly 1, 2. -/
theorem c10_witness :
    outLines (mainRun "" "" (fun k => if k < 3 then some (7 * k) else none)).events =
      bannerLines "" "" ++
        ((mainRun "" "" (fun k => if k < 3 then some (7 * k) else none)).readings.map
          fun r => readingLine r.idx r.temp r.ts) ∧
    (mainRun "" "" (fun k => if k < 3 then some (7 * k) else none)).readings.map
        Reading.idx =
      List.range' 1 (3 - 1) :=
  c10_atomic_lines "" "" (fun k => if k < 3 then some (7 * k) else none)
    (fun k => 7 * k) 3 (by omega) (by omega) rfl
    (fun j _ h3 => if_pos h3)

end RemainingClaims
